import Mathlib

/-!
Shallow embedding of `src/components/inventory/CreateSaleDialog.tsx`
(invenai-smart-flow-v3): the sale-entry dialog component, its form state,
the derived stock computation and the event handlers
(`handleProductChange`, `handleQuantityChange`, `handleSubmit`, Cancel),
together with models of the JavaScript string/number primitives the
component calls (`parseInt`, `parseFloat`, `Number.prototype.toFixed`,
`String.prototype.replace` with the currency regex, and
`new Date().toISOString().split('T')[0]`).

JavaScript numbers are modelled exactly: integer quantities as `Int`,
prices as `ℚ` (exact rationals in place of IEEE doubles), `NaN` as the
`none` of an `Option`.  Time is modelled by passing the submission
instant (milliseconds since the Unix epoch) as an explicit argument; the
environment's local timezone offset is carried in the state so that
independence from it can be stated, and is never read by any handler,
mirroring `toISOString`'s UTC-only output.
-/

namespace InvenAI

/-- A product row from the `useProducts` hook: `id`, `name` and the
currency-formatted `sellPrice` string. -/
structure Product where
  id : String
  name : String
  sellPrice : String
deriving DecidableEq, Repr

/-- The status enum of a sale: `'Completed' | 'Pending' | 'Cancelled'`. -/
inductive SaleStatus where
  | Completed
  | Pending
  | Cancelled
deriving DecidableEq, Repr

/-- A `Sale`-without-`id` record, both as stored in the `useSales`
collection and as emitted through `onSaleCreated`. -/
structure SaleRecord where
  productId : String
  productName : String
  quantity : Int
  unitPrice : String
  totalAmount : String
  date : String
  status : SaleStatus
  customerName : String
  notes : String
deriving DecidableEq, Repr

/-- A purchase row from the `usePurchases` hook (the fields the component
reads: `productId` and `quantity`). -/
structure Purchase where
  productId : String
  quantity : Int
deriving DecidableEq, Repr

/-- A sales-return row from the `useSalesReturns` hook (the fields the
component reads: `productId` and `returnQuantity`). -/
structure SalesReturn where
  productId : String
  returnQuantity : Int
deriving DecidableEq, Repr

/-- The `formData` React state of the component. -/
structure FormData where
  productId : String
  quantity : Int
  unitPrice : String
  customerName : String
  status : SaleStatus
  notes : String
deriving DecidableEq, Repr

/-- The initial `useState` value of `formData`, also assigned again after a
successful submit. -/
def initialFormData : FormData :=
  { productId := ""
    quantity := 1
    unitPrice := ""
    customerName := ""
    status := SaleStatus.Completed
    notes := "" }

/-- The component's full state: the four externally supplied read-only
collections, the `formData` state, the dialog's `open` flag, and the
environment's local timezone offset (minutes), which no handler reads. -/
structure State where
  products : List Product
  sales : List SaleRecord
  purchases : List Purchase
  salesReturns : List SalesReturn
  formData : FormData
  dialogOpen : Bool
  tzOffsetMinutes : Int
deriving DecidableEq, Repr

/-- `getCalculatedStock(productId)` from the source: filters the three
collections by `productId`, reduces each to a quantity sum, and returns
`totalPurchased + totalReturned - totalSold`. -/
def getCalculatedStock (st : State) (productId : String) : Int :=
  let productSales := st.sales.filter (fun sale => sale.productId == productId)
  let productPurchases := st.purchases.filter (fun purchase => purchase.productId == productId)
  let productReturns := st.salesReturns.filter (fun returnItem => returnItem.productId == productId)
  let totalSold := productSales.foldl (fun sum sale => sum + sale.quantity) 0
  let totalPurchased := productPurchases.foldl (fun sum purchase => sum + purchase.quantity) 0
  let totalReturned := productReturns.foldl (fun sum returnItem => sum + returnItem.returnQuantity) 0
  totalPurchased + totalReturned - totalSold

/-- `products.find(p => p.id === formData.productId)` from the source. -/
def selectedProduct (st : State) : Option Product :=
  st.products.find? (fun p => p.id == st.formData.productId)

/-- `availableStock = selectedProduct ? getCalculatedStock(selectedProduct.id) : 0`. -/
def availableStock (st : State) : Int :=
  match selectedProduct st with
  | some p => getCalculatedStock st p.id
  | none => 0

/-- `isQuantityValid = formData.quantity <= availableStock`. -/
def isQuantityValid (st : State) : Bool :=
  decide (st.formData.quantity ≤ availableStock st)

/-- Specification-side restatement of total sold quantity for a product:
the sum of `quantity` over sales whose `productId` matches. -/
def totalSoldSpec (st : State) (productId : String) : Int :=
  ((st.sales.filter (fun s => s.productId == productId)).map (fun s => s.quantity)).sum

/-- Specification-side restatement of total purchased quantity for a
product: the sum of `quantity` over purchases whose `productId` matches. -/
def totalPurchasedSpec (st : State) (productId : String) : Int :=
  ((st.purchases.filter (fun p => p.productId == productId)).map (fun p => p.quantity)).sum

/-- Specification-side restatement of total returned quantity for a
product: the sum of `returnQuantity` over sales-returns whose `productId`
matches. -/
def totalReturnedSpec (st : State) (productId : String) : Int :=
  ((st.salesReturns.filter (fun r => r.productId == productId)).map (fun r => r.returnQuantity)).sum

/-- A concrete state whose only product has more sales than purchases, so
its calculated stock is negative. -/
def negativeStockState : State :=
  { products := [{ id := "P9", name := "Gadget", sellPrice := "$4" }]
    sales := [{ productId := "P9", productName := "Gadget", quantity := 8,
                unitPrice := "4.00", totalAmount := "32.00", date := "2024-01-01",
                status := SaleStatus.Completed, customerName := "", notes := "" }]
    purchases := [{ productId := "P9", quantity := 3 }]
    salesReturns := []
    formData := initialFormData
    dialogOpen := true
    tzOffsetMinutes := 0 }

/-- JavaScript whitespace skipped by `parseInt`/`parseFloat` (the common
WhiteSpace and LineTerminator code points used in form input). -/
def isJsSpace (c : Char) : Bool :=
  c == ' ' || c == '\t' || c == '\n' || c == '\r' || c == '\x0b' || c == '\x0c'

/-- Value of a decimal digit character, `none` for non-digits. -/
def digitVal (c : Char) : Option Nat :=
  if '0' ≤ c ∧ c ≤ '9' then some (c.toNat - '0'.toNat) else none

/-- Value of a hexadecimal digit character, `none` for non-digits. -/
def hexVal (c : Char) : Option Nat :=
  if '0' ≤ c ∧ c ≤ '9' then some (c.toNat - '0'.toNat)
  else if 'a' ≤ c ∧ c ≤ 'f' then some (c.toNat - 'a'.toNat + 10)
  else if 'A' ≤ c ∧ c ≤ 'F' then some (c.toNat - 'A'.toNat + 10)
  else none

/-- Reads the longest prefix of digits (per the digit reader `f` and
`base`), returning the accumulated value, the digit count, and the rest. -/
def readDigits (f : Char → Option Nat) (base : Nat) :
    List Char → Nat → Nat → Nat × Nat × List Char
  | [], acc, cnt => (acc, cnt, [])
  | c :: rest, acc, cnt =>
    match f c with
    | some d => readDigits f base rest (acc * base + d) (cnt + 1)
    | none => (acc, cnt, c :: rest)

/-- JavaScript `parseInt(s)` with the radix argument omitted: skip leading
whitespace, read an optional sign, detect a `0x`/`0X` prefix (hexadecimal)
and otherwise parse decimal, taking the longest digit prefix; `none`
models the `NaN` result when no digit is read. -/
def jsParseInt (s : String) : Option Int :=
  let cs := s.toList.dropWhile isJsSpace
  let (sign, body) :=
    match cs with
    | '-' :: rest => ((-1 : Int), rest)
    | '+' :: rest => ((1 : Int), rest)
    | _ => ((1 : Int), cs)
  match body with
  | '0' :: 'x' :: rest =>
    let (v, cnt, _) := readDigits hexVal 16 rest 0 0
    if cnt = 0 then none else some (sign * v)
  | '0' :: 'X' :: rest =>
    let (v, cnt, _) := readDigits hexVal 16 rest 0 0
    if cnt = 0 then none else some (sign * v)
  | _ =>
    let (v, cnt, _) := readDigits digitVal 10 body 0 0
    if cnt = 0 then none else some (sign * v)

/-- JavaScript `x || 1` applied to a `parseInt` result: `NaN` (here
`none`) and `0` are falsy and give `1`; any other number is kept. -/
def jsOrOne (r : Option Int) : Int :=
  match r with
  | none => 1
  | some 0 => 1
  | some n => n

/-- Exponent part of a JavaScript float literal: optional sign then
digits; an exponent with no digits contributes 0 (it is not consumed). -/
def readExp (cs : List Char) : Int :=
  let (sign, body) :=
    match cs with
    | '-' :: rest => ((-1 : Int), rest)
    | '+' :: rest => ((1 : Int), rest)
    | _ => ((1 : Int), cs)
  let (v, cnt, _) := readDigits digitVal 10 body 0 0
  if cnt = 0 then 0 else sign * v

/-- An exact scaled-decimal number `m * 10 ^ e`, the value model for the
component's prices: every value `parseFloat` can produce from a decimal
literal is of this form, and it stands in for the IEEE double with exact
arithmetic. -/
structure JsNum where
  m : Int
  e : Int
deriving DecidableEq, Repr

/-- The value of a `JsNum` as an exact rational, used to state what the
representation denotes. -/
def JsNum.val (x : JsNum) : ℚ :=
  (x.m : ℚ) * (10 : ℚ) ^ x.e

/-- Multiplication of a price by an integer quantity
(`unitPrice * formData.quantity`). -/
def JsNum.mulInt (x : JsNum) (q : Int) : JsNum :=
  { m := x.m * q, e := x.e }

/-- JavaScript `parseFloat(s)`: skip leading whitespace, read an optional
sign, integer digits, an optional fraction and an optional exponent,
taking the longest valid prefix; `none` models `NaN` (no digit at all).
A literal with integer part `ip`, `fc` fraction digits of value `fp` and
exponent `ex` denotes `sign * (ip * 10^fc + fp) * 10^(ex - fc)`; the
`Infinity` literal is not modelled. -/
def jsParseFloat (s : String) : Option JsNum :=
  let cs := s.toList.dropWhile isJsSpace
  let (sign, body) :=
    match cs with
    | '-' :: rest => ((-1 : Int), rest)
    | '+' :: rest => ((1 : Int), rest)
    | _ => ((1 : Int), cs)
  let (ip, ic, rest1) := readDigits digitVal 10 body 0 0
  let (fp, fc, rest2) :=
    match rest1 with
    | '.' :: r => readDigits digitVal 10 r 0 0
    | _ => (0, 0, rest1)
  if ic + fc = 0 then none
  else
    let ex : Int :=
      match rest2 with
      | 'e' :: r => readExp r
      | 'E' :: r => readExp r
      | _ => 0
    some { m := sign * (ip * 10 ^ fc + fp), e := ex - fc }

/-- `Number.prototype.toFixed(2)` on a non-negative value `m * 10 ^ e`:
the integer `n` minimising `|n / 100 - x|` (the larger `n` on a tie,
i.e. `n = ⌊100 * x + 1/2⌋`), printed with two decimal places. -/
def fixed2OfNonneg (x : JsNum) : String :=
  let n : Nat :=
    if 0 ≤ x.e + 2 then x.m.toNat * 10 ^ (x.e + 2).toNat
    else
      let k := (-(x.e + 2)).toNat
      (2 * x.m.toNat + 10 ^ k) / (2 * 10 ^ k)
  let whole := n / 100
  let frac := n % 100
  toString whole ++ "." ++ (if frac < 10 then "0" else "") ++ toString frac

/-- `Number.prototype.toFixed(2)`: negative values print a minus sign in
front of the rendering of the absolute value. -/
def jsToFixed2 (x : JsNum) : String :=
  if x.m < 0 then "-" ++ fixed2OfNonneg { m := -x.m, e := x.e } else fixed2OfNonneg x

/-- `toFixed(2)` lifted to the `NaN`-aware number model:
`NaN.toFixed(2)` is the string `"NaN"`. -/
def jsToFixed2Opt (r : Option JsNum) : String :=
  match r with
  | some x => jsToFixed2 x
  | none => "NaN"

/-- The currency stripping `sellPrice.replace(/[$৳]/g, '')`: removes
every `$` and `৳` character. -/
def stripCurrency (s : String) : String :=
  String.mk (s.toList.filter (fun c => !(c == '$' || c == '৳')))

/-- Civil date (year, month, day) of a day count since 1970-01-01,
proleptic Gregorian (the conversion inside `Date.prototype.toISOString`). -/
def civilFromDays (days : Nat) : Nat × Nat × Nat :=
  let z := days + 719468
  let era := z / 146097
  let doe := z % 146097
  let yoe := (doe - doe / 1460 + doe / 36524 - doe / 146096) / 365
  let y := yoe + era * 400
  let doy := doe - (365 * yoe + yoe / 4 - yoe / 100)
  let mp := (5 * doy + 2) / 153
  let d := doy - (153 * mp + 2) / 5 + 1
  let m := if mp < 10 then mp + 3 else mp - 9
  if m ≤ 2 then (y + 1, m, d) else (y, m, d)

/-- Zero-padding to two digits for month and day fields. -/
def pad2 (n : Nat) : String :=
  if n < 10 then "0" ++ toString n else toString n

/-- Zero-padding to four digits for the year field. -/
def pad4 (n : Nat) : String :=
  if n < 10 then "000" ++ toString n
  else if n < 100 then "00" ++ toString n
  else if n < 1000 then "0" ++ toString n
  else toString n

/-- `new Date(millis).toISOString().split('T')[0]`: the UTC calendar date
of the instant `millis` (milliseconds since the Unix epoch) in
`YYYY-MM-DD` form.  `toISOString` is defined over UTC, so no timezone
offset enters the computation. -/
def toISODate (millis : Nat) : String :=
  let (y, m, d) := civilFromDays (millis / 86400000)
  pad4 y ++ "-" ++ pad2 m ++ "-" ++ pad2 d

/-- `handleProductChange(productId)` from the source: looks the product
up, then spreads `formData` with the new `productId`, the stripped sell
price as `unitPrice` (empty when the product is absent), and `quantity`
reset to 1. -/
def handleProductChange (st : State) (productId : String) : State :=
  let product := st.products.find? (fun p => p.id == productId)
  { st with
      formData :=
        { st.formData with
            productId := productId
            unitPrice :=
              match product with
              | some p => stripCurrency p.sellPrice
              | none => ""
            quantity := 1 } }

/-- `handleQuantityChange(value)` from the source:
`newQuantity = parseInt(value) || 1`, then
`quantity = Math.min(newQuantity, availableStock)`. -/
def handleQuantityChange (st : State) (value : String) : State :=
  let newQuantity := jsOrOne (jsParseInt value)
  { st with
      formData := { st.formData with quantity := min newQuantity (availableStock st) } }

/-- `unitPrice = formData.unitPrice ? parseFloat(formData.unitPrice) : 0`
(line 48): the numeric unit price used for the total, `none` = `NaN`. -/
def unitPriceNum (st : State) : Option JsNum :=
  if st.formData.unitPrice == "" then some { m := 0, e := 0 }
  else jsParseFloat st.formData.unitPrice

/-- `totalAmount = unitPrice * formData.quantity` (line 49); `NaN`
propagates through the multiplication. -/
def totalAmountNum (st : State) : Option JsNum :=
  (unitPriceNum st).map (fun u => u.mulInt st.formData.quantity)

/-- `handleSubmit` from the source, with the submission instant `now`
(epoch milliseconds) passed explicitly.  Returns the record handed to
`onSaleCreated` (or `none` when the guard returns early) together with
the state after the handler: on the guarded path nothing changes; on
success the dialog is closed via `onOpenChange(false)` and `formData` is
reset to its initial value. -/
def handleSubmit (st : State) (now : Nat) : Option SaleRecord × State :=
  match selectedProduct st with
  | none => (none, st)
  | some product =>
    if st.formData.unitPrice == "" then (none, st)
    else if !isQuantityValid st then (none, st)
    else
      let saleData : SaleRecord :=
        { productId := st.formData.productId
          productName := product.name
          quantity := st.formData.quantity
          unitPrice := jsToFixed2Opt (jsParseFloat st.formData.unitPrice)
          totalAmount := jsToFixed2Opt (totalAmountNum st)
          date := toISODate now
          status := st.formData.status
          customerName := st.formData.customerName
          notes := st.formData.notes }
      (some saleData, { st with dialogOpen := false, formData := initialFormData })

/-- The Cancel button's `onClick={() => onOpenChange(false)}`: closes the
dialog, emits nothing, touches no state besides the `open` flag. -/
def handleCancel (st : State) : Option SaleRecord × State :=
  (none, { st with dialogOpen := false })

/-- The submit button's
`disabled={!formData.productId || !formData.unitPrice || !isQuantityValid}`
(line 224). -/
def submitDisabled (st : State) : Bool :=
  st.formData.productId == "" || st.formData.unitPrice == "" || !isQuantityValid st

/-- A state with the dialog freshly opened and no data: no products, so
no product is selected. -/
def initialState : State :=
  { products := []
    sales := []
    purchases := []
    salesReturns := []
    formData := initialFormData
    dialogOpen := true
    tzOffsetMinutes := 0 }

/-- A state whose selected product `"P1"` has no purchase, sale or return
history, so its calculated stock is 0, with a unit price already typed. -/
def zeroStockState : State :=
  { products := [{ id := "P1", name := "Widget", sellPrice := "৳10" }]
    sales := []
    purchases := []
    salesReturns := []
    formData :=
      { productId := "P1"
        quantity := 1
        unitPrice := "10"
        customerName := ""
        status := SaleStatus.Completed
        notes := "" }
    dialogOpen := true
    tzOffsetMinutes := 0 }

/-- A state ready to submit: selected product `"P1"` with 50 units
purchased, quantity 3, unit price `"19.999"` typed. -/
def richState : State :=
  { products := [{ id := "P1", name := "Widget", sellPrice := "৳20" }]
    sales := []
    purchases := [{ productId := "P1", quantity := 50 }]
    salesReturns := []
    formData :=
      { productId := "P1"
        quantity := 3
        unitPrice := "19.999"
        customerName := "Alice"
        status := SaleStatus.Completed
        notes := "first sale" }
    dialogOpen := true
    tzOffsetMinutes := 360 }

/-- Folding `fun s x => s + f x` over a list from `a` equals `a` plus the
sum of the mapped list (the shape of the source's `reduce` calls). -/
theorem foldl_add_eq_sum {α : Type} (f : α → Int) (l : List α) (a : Int) :
    l.foldl (fun sum x => sum + f x) a = a + (l.map f).sum := by
  induction l generalizing a with
  | nil => simp
  | cons x xs ih =>
    simp only [List.foldl_cons, List.map_cons, List.sum_cons, ih]
    ring

/-- Changing the quantity field does not change which product is
selected. -/
theorem selectedProduct_handleQuantityChange (st : State) (v : String) :
    selectedProduct (handleQuantityChange st v) = selectedProduct st := rfl

/-- Changing the quantity field does not change the derived available
stock. -/
theorem availableStock_handleQuantityChange (st : State) (v : String) :
    availableStock (handleQuantityChange st v) = availableStock st := by
  unfold availableStock
  rw [selectedProduct_handleQuantityChange]
  cases selectedProduct st with
  | none => rfl
  | some p => rfl

/-- Changing the quantity field does not change the unit price field. -/
theorem unitPrice_handleQuantityChange (st : State) (v : String) :
    (handleQuantityChange st v).formData.unitPrice = st.formData.unitPrice := rfl

/-- The environment's timezone offset plays no part in product
selection. -/
theorem selectedProduct_set_tz (st : State) (tz : Int) :
    selectedProduct { st with tzOffsetMinutes := tz } = selectedProduct st := rfl

/-- The environment's timezone offset plays no part in quantity
validation. -/
theorem isQuantityValid_set_tz (st : State) (tz : Int) :
    isQuantityValid { st with tzOffsetMinutes := tz } = isQuantityValid st := rfl

/-- C1: for every state and productId, `getCalculatedStock` equals the sum
of purchase quantities plus the sum of return quantities minus the sum of
sale quantities over the matching records; and the result can be negative
(witnessed by a state with 3 purchased and 8 sold giving stock `-5`)
without being an error value — the function totally returns an `Int`. -/
theorem getCalculatedStock_eq_sums :
    (∀ (st : State) (productId : String),
      getCalculatedStock st productId =
        totalPurchasedSpec st productId + totalReturnedSpec st productId
          - totalSoldSpec st productId) ∧
    getCalculatedStock negativeStockState "P9" = -5 := by
  constructor
  · intro st productId
    simp only [getCalculatedStock, totalPurchasedSpec, totalReturnedSpec, totalSoldSpec,
      foldl_add_eq_sum, zero_add]
  · rfl

/-- C2: with the selected product's available stock at 0 and a unit price
typed, entering "5" in the quantity field stores `min(5, 0) = 0`, which
`isQuantityValid` accepts, so the submit button is NOT disabled and
submitting emits a sale of quantity 0 — the claim that the button stays
disabled when `availableStock == 0` fails on the code. -/
theorem zero_stock_submit_button_enabled :
    availableStock zeroStockState = 0 ∧
    (handleQuantityChange zeroStockState "5").formData.quantity = 0 ∧
    submitDisabled (handleQuantityChange zeroStockState "5") = false ∧
    ((handleSubmit (handleQuantityChange zeroStockState "5") 0).1.map (fun s => s.quantity))
      = some 0 :=
  ⟨rfl, rfl, rfl, rfl⟩

/-- C3: for every state and raw input string, the stored quantity after
the change handler is `min(parseInt(value) || 1, availableStock)`, and
every other field of the form state is untouched. -/
theorem handleQuantityChange_stores_clamped (st : State) (v : String) :
    (handleQuantityChange st v).formData.quantity
        = min (jsOrOne (jsParseInt v)) (availableStock st) ∧
    (handleQuantityChange st v).formData.productId = st.formData.productId ∧
    (handleQuantityChange st v).formData.unitPrice = st.formData.unitPrice ∧
    (handleQuantityChange st v).formData.customerName = st.formData.customerName ∧
    (handleQuantityChange st v).formData.status = st.formData.status ∧
    (handleQuantityChange st v).formData.notes = st.formData.notes :=
  ⟨rfl, rfl, rfl, rfl, rfl, rfl⟩

/-- C4: whenever the submit guard fails — no selected product, empty unit
price, or invalid quantity — `handleSubmit` emits nothing and returns the
state unchanged (dialog still open, every field as before); being a total
function, it raises no error in any case. -/
theorem handleSubmit_guarded_noop (st : State) (now : Nat)
    (h : selectedProduct st = none ∨ st.formData.unitPrice = "" ∨ isQuantityValid st = false) :
    handleSubmit st now = (none, st) := by
  unfold handleSubmit
  rcases h with h | h | h
  · rw [h]
  · cases hs : selectedProduct st with
    | none => rfl
    | some p => simp [h]
  · cases hs : selectedProduct st with
    | none => rfl
    | some p =>
      by_cases hu : st.formData.unitPrice = "" <;> simp [h, hu]

/-- Witness for C4: in the initial state no product is selected, and
submitting changes nothing and emits nothing. -/
theorem handleSubmit_guarded_noop_witness :
    handleSubmit initialState 0 = (none, initialState) :=
  handleSubmit_guarded_noop initialState 0 (Or.inl rfl)

/-- Counterexample to C5 as stated: with available stock 0, the quantity
change handler on input "-5" stores `min(-5, 0) = -5`, not the available
stock value 0 — so "any call to onQuantityChanged stores quantity =
availableStock" is false. -/
theorem quantity_eq_stock_counterexample :
    availableStock zeroStockState = 0 ∧
    (handleQuantityChange zeroStockState "-5").formData.quantity = -5 ∧
    (handleQuantityChange zeroStockState "-5").formData.quantity
      ≠ availableStock zeroStockState :=
  ⟨rfl, rfl, by decide⟩

/-- C5 (amended): if a product is selected, its available stock is ≤ 0
and the unit price field is non-empty, then any quantity input stores a
value ≤ the available stock (hence ≤ 0, below the spec's minimum of 1),
`isQuantityValid` holds in the resulting state, and submitting emits a
sale record whose quantity is that stored non-positive value. -/
theorem nonpositive_stock_sale_emitted (st : State) (v : String) (now : Nat) (p : Product)
    (hsel : selectedProduct st = some p)
    (hstock : availableStock st ≤ 0)
    (hprice : st.formData.unitPrice ≠ "") :
    (handleQuantityChange st v).formData.quantity ≤ 0 ∧
    isQuantityValid (handleQuantityChange st v) = true ∧
    ((handleSubmit (handleQuantityChange st v) now).1.map (fun s => s.quantity))
      = some ((handleQuantityChange st v).formData.quantity) := by
  have hq : (handleQuantityChange st v).formData.quantity
      = min (jsOrOne (jsParseInt v)) (availableStock st) := rfl
  have hle : (handleQuantityChange st v).formData.quantity ≤ availableStock st := by
    rw [hq]; exact min_le_right _ _
  have hvalid : isQuantityValid (handleQuantityChange st v) = true := by
    unfold isQuantityValid
    rw [availableStock_handleQuantityChange]
    exact decide_eq_true hle
  have hsel' : selectedProduct (handleQuantityChange st v) = some p := by
    rw [selectedProduct_handleQuantityChange]; exact hsel
  have hbeq : ((handleQuantityChange st v).formData.unitPrice == "") = false := by
    rw [unitPrice_handleQuantityChange]
    exact beq_eq_false_iff_ne.mpr hprice
  refine ⟨le_trans hle hstock, hvalid, ?_⟩
  simp [handleSubmit, hsel', hbeq, hvalid]

/-- Witness for C5: concretely, with stock 0 and price "10" typed,
entering quantity "7" stores 0, validation passes, and submitting emits a
sale of quantity 0. -/
theorem nonpositive_stock_sale_emitted_witness :
    (handleQuantityChange zeroStockState "7").formData.quantity ≤ 0 ∧
    isQuantityValid (handleQuantityChange zeroStockState "7") = true ∧
    ((handleSubmit (handleQuantityChange zeroStockState "7") 5).1.map (fun s => s.quantity))
      = some ((handleQuantityChange zeroStockState "7").formData.quantity) :=
  nonpositive_stock_sale_emitted zeroStockState "7" 5
    { id := "P1", name := "Widget", sellPrice := "৳10" }
    rfl (by decide) (by decide)

/-- C6: on every successful submit, the emitted record's `unitPrice` is
the `toFixed(2)` rendering of `parseFloat(formData.unitPrice)` and its
`totalAmount` is the `toFixed(2)` rendering of that value times the
stored quantity. -/
theorem submit_prices_fixed2 (st : State) (now : Nat) (p : Product)
    (hsel : selectedProduct st = some p)
    (hprice : st.formData.unitPrice ≠ "")
    (hvalid : isQuantityValid st = true) :
    ((handleSubmit st now).1.map (fun s => s.unitPrice))
        = some (jsToFixed2Opt (jsParseFloat st.formData.unitPrice)) ∧
    ((handleSubmit st now).1.map (fun s => s.totalAmount))
        = some (jsToFixed2Opt ((jsParseFloat st.formData.unitPrice).map
            (fun u => u.mulInt st.formData.quantity))) := by
  have hbeq : (st.formData.unitPrice == "") = false := beq_eq_false_iff_ne.mpr hprice
  constructor
  · simp [handleSubmit, hsel, hbeq, hvalid]
  · simp [handleSubmit, hsel, hbeq, hvalid, totalAmountNum, unitPriceNum]

/-- Witness for C6: submitting with unit price "19.999" and quantity 3
(stock 50) emits `unitPrice = "20.00"` and `totalAmount = "60.00"`. -/
theorem submit_prices_fixed2_witness :
    ((handleSubmit richState 0).1.map (fun s => s.unitPrice)) = some "20.00" ∧
    ((handleSubmit richState 0).1.map (fun s => s.totalAmount)) = some "60.00" := by
  have h := submit_prices_fixed2 richState 0
    { id := "P1", name := "Widget", sellPrice := "৳20" } rfl (by decide) rfl
  exact ⟨h.1.trans (by rfl), h.2.trans (by rfl)⟩

/-- C7: on every successful submit a record is emitted, the dialog is
closed, and the form state is reset to its defaults: empty productId,
quantity 1, empty unitPrice, status Completed, empty customerName and
notes. -/
theorem submit_resets_form (st : State) (now : Nat) (p : Product)
    (hsel : selectedProduct st = some p)
    (hprice : st.formData.unitPrice ≠ "")
    (hvalid : isQuantityValid st = true) :
    (handleSubmit st now).1.isSome = true ∧
    (handleSubmit st now).2.dialogOpen = false ∧
    (handleSubmit st now).2.formData.productId = "" ∧
    (handleSubmit st now).2.formData.quantity = 1 ∧
    (handleSubmit st now).2.formData.unitPrice = "" ∧
    (handleSubmit st now).2.formData.status = SaleStatus.Completed ∧
    (handleSubmit st now).2.formData.customerName = "" ∧
    (handleSubmit st now).2.formData.notes = "" := by
  have hbeq : (st.formData.unitPrice == "") = false := beq_eq_false_iff_ne.mpr hprice
  refine ⟨?_, ?_, ?_, ?_, ?_, ?_, ?_, ?_⟩ <;>
    simp [handleSubmit, hsel, hbeq, hvalid, initialFormData]

/-- Witness for C7: submitting the ready-to-submit concrete state emits a
record, closes the dialog and resets every form field. -/
theorem submit_resets_form_witness :
    (handleSubmit richState 0).1.isSome = true ∧
    (handleSubmit richState 0).2.dialogOpen = false ∧
    (handleSubmit richState 0).2.formData.productId = "" ∧
    (handleSubmit richState 0).2.formData.quantity = 1 ∧
    (handleSubmit richState 0).2.formData.unitPrice = "" ∧
    (handleSubmit richState 0).2.formData.status = SaleStatus.Completed ∧
    (handleSubmit richState 0).2.formData.customerName = "" ∧
    (handleSubmit richState 0).2.formData.notes = "" :=
  submit_resets_form richState 0
    { id := "P1", name := "Widget", sellPrice := "৳20" } rfl (by decide) rfl

/-- C8: the Cancel button closes the dialog, emits no record, and leaves
every field of the form state and all collections unchanged; in
particular reopening the dialog shows the previous field values. -/
theorem cancel_preserves_form (st : State) :
    (handleCancel st).1 = none ∧
    (handleCancel st).2.dialogOpen = false ∧
    (handleCancel st).2.formData = st.formData ∧
    (handleCancel st).2.products = st.products ∧
    (handleCancel st).2.sales = st.sales ∧
    (handleCancel st).2.purchases = st.purchases ∧
    (handleCancel st).2.salesReturns = st.salesReturns :=
  ⟨rfl, rfl, rfl, rfl, rfl, rfl, rfl⟩

/-- C9: when the chosen productId is found in the products list, the
product-change handler stores that productId, resets the quantity to 1,
pre-fills the unit price with the found product's sell price stripped of
every `$` and `৳` character, and leaves customerName, status and notes
unchanged. -/
theorem handleProductChange_spec (st : State) (productId : String) (p : Product)
    (h : st.products.find? (fun q => q.id == productId) = some p) :
    (handleProductChange st productId).formData.productId = productId ∧
    (handleProductChange st productId).formData.quantity = 1 ∧
    (handleProductChange st productId).formData.unitPrice = stripCurrency p.sellPrice ∧
    (handleProductChange st productId).formData.customerName = st.formData.customerName ∧
    (handleProductChange st productId).formData.status = st.formData.status ∧
    (handleProductChange st productId).formData.notes = st.formData.notes := by
  refine ⟨rfl, rfl, ?_, rfl, rfl, rfl⟩
  simp [handleProductChange, h]

/-- Witness for C9: selecting `"P1"` in the zero-stock state stores the
id, quantity 1, and the `"৳10"` sell price stripped to `"10"`. -/
theorem handleProductChange_spec_witness :
    (handleProductChange zeroStockState "P1").formData.productId = "P1" ∧
    (handleProductChange zeroStockState "P1").formData.quantity = 1 ∧
    (handleProductChange zeroStockState "P1").formData.unitPrice
      = stripCurrency "৳10" ∧
    (handleProductChange zeroStockState "P1").formData.customerName
      = zeroStockState.formData.customerName ∧
    (handleProductChange zeroStockState "P1").formData.status
      = zeroStockState.formData.status ∧
    (handleProductChange zeroStockState "P1").formData.notes
      = zeroStockState.formData.notes :=
  handleProductChange_spec zeroStockState "P1"
    { id := "P1", name := "Widget", sellPrice := "৳10" } rfl

/-- C10: the date of every emitted sale record is the UTC calendar date
of the submission instant in `YYYY-MM-DD` form, and it is unchanged under
any value of the environment's local timezone offset. -/
theorem submit_date_utc (st : State) (now : Nat) (tz : Int) (p : Product)
    (hsel : selectedProduct st = some p)
    (hprice : st.formData.unitPrice ≠ "")
    (hvalid : isQuantityValid st = true) :
    ((handleSubmit st now).1.map (fun s => s.date)) = some (toISODate now) ∧
    ((handleSubmit { st with tzOffsetMinutes := tz } now).1.map (fun s => s.date))
        = some (toISODate now) := by
  have hbeq : (st.formData.unitPrice == "") = false := beq_eq_false_iff_ne.mpr hprice
  have hsel' : selectedProduct { st with tzOffsetMinutes := tz } = some p := hsel
  have hvalid' : isQuantityValid { st with tzOffsetMinutes := tz } = true := hvalid
  constructor
  · simp [handleSubmit, hsel, hbeq, hvalid]
  · simp [handleSubmit, hsel', hbeq, hvalid']

/-- Witness for C10: submitting at 86399000 ms after the epoch
(1970-01-01 23:59:59 UTC) with a local offset of -360 minutes — where the
local calendar date is already 1970-01-02 — still emits the UTC date
"1970-01-01". -/
theorem submit_date_utc_witness :
    ((handleSubmit richState 86399000).1.map (fun s => s.date)) = some "1970-01-01" ∧
    ((handleSubmit { richState with tzOffsetMinutes := -360 } 86399000).1.map
        (fun s => s.date)) = some "1970-01-01" := by
  have h := submit_date_utc richState 86399000 (-360)
    { id := "P1", name := "Widget", sellPrice := "৳20" } rfl (by decide) rfl
  exact ⟨h.1.trans (by rfl), h.2.trans (by rfl)⟩

end InvenAI
